import Mathlib

/-!
Shallow embedding of the three artifacts of this repository:

* `src/wren-ui/src/components/pages/home/dashboardGrid/index.tsx` — the
  `DashboardGrid` React component (namespace `DashboardGridSrc`);
* `src/wren-ai-service/tests/data/config.test.yaml` — the YAML configuration
  fixture, a stream of six YAML documents (namespace `ConfigFixture`);
* the Docker Compose deployment descriptor (namespace `ComposeFile`).

Every definition is a direct transcription of the corresponding source
artifact; JSX element trees are modelled by the inductive `Element`, YAML
records by Lean structures whose fields keep the YAML key names, and the
Compose services by a `Service` structure.
-/

namespace DashboardGridSrc

/-- The `layout` record of a grid-cell descriptor: `{ x, y, w, h }` as in
`index.tsx` lines 32 and 38. -/
structure Layout where
  x : Int
  y : Int
  w : Int
  h : Int

/-- A JSX element tree, covering exactly the element shapes occurring in
`index.tsx`: text nodes, `div` elements (with optional `key` and `data-grid`
attributes), the `GridLayout` element of `react-grid-layout`, and the
`StyledDashboardGrid` styled `div`. -/
inductive Element where
  | text (s : String)
  | div (className : String) (key : Option String) (dataGrid : Option Layout)
      (children : List Element)
  | gridLayout (className : String) (cols : Nat) (marginX : Int) (marginY : Int)
      (rowHeight : Nat) (width : Nat) (children : List Element)
  | styledDiv (className : String) (children : List Element)

/-- The `key` attribute of an element (`none` when absent or inapplicable). -/
def Element.key : Element → Option String
  | .div _ k _ _ => k
  | _ => none

/-- The `data-grid` attribute of an element (`none` when absent or
inapplicable). -/
def Element.dataGrid : Element → Option Layout
  | .div _ _ g _ => g
  | _ => none

/-- The child list of an element. -/
def Element.children : Element → List Element
  | .text _ => []
  | .div _ _ _ cs => cs
  | .gridLayout _ _ _ _ _ _ cs => cs
  | .styledDiv _ cs => cs

/-- The `cols` prop of a `GridLayout` element. -/
def Element.gridCols : Element → Option Nat
  | .gridLayout _ c _ _ _ _ _ => some c
  | _ => none

/-- One entry of the `gridLayouts` array: `{ id, layout, render }`. -/
structure GridItem where
  id : String
  layout : Layout
  render : Element

/-- The fixed `gridLayouts` array built by the `useMemo` callback in
`index.tsx` lines 29–42 (the dependency array is empty, so the callback's
value is the constant list below). -/
def gridLayouts : List GridItem :=
  [ { id := "a",
      layout := { x := 0, y := 0, w := 6, h := 6 },
      render := .div "adm-pin-item" none none [.text "a"] },
    { id := "b",
      layout := { x := 6, y := 0, w := 6, h := 6 },
      render := .div "adm-pin-item" none none [.text "b"] } ]

/-- The body of the arrow function passed to `gridLayouts.map` in
`index.tsx` lines 46–52: a `div` keyed by `item.id`, carrying
`data-grid={item.layout}`, whose sole content is `item.render`. -/
def mkGridChild (item : GridItem) : Element :=
  .div "" (some item.id) (some item.layout) [item.render]

/-- The `grids` constant of `index.tsx` lines 46–52. -/
def grids : List Element := gridLayouts.map mkGridChild

/-- The value returned by the `DashboardGrid` function component
(`index.tsx` lines 56–68): the styled wrapper `div` with className `mt-12`
containing the `GridLayout` element (`cols={12}`, `margin={[16, 16]}`,
`rowHeight={30}`, `width={768}`) whose children are `grids`.  The component
takes no props, so it is a function on `Unit`.  The two `console.log` calls
are output-only and do not affect the returned tree. -/
def DashboardGrid : Unit → Element := fun _ =>
  .styledDiv "mt-12" [.gridLayout "layout" 12 16 16 30 768 grids]

mutual

/-- Well-formedness of an element tree: every node is one of the four
element shapes (enforced by the type), and every direct child of a
`GridLayout` element carries a `key` attribute, as `react-grid-layout`
requires of its children. -/
def Element.wf : Element → Bool
  | .text _ => true
  | .div _ _ _ cs => wfAll cs
  | .gridLayout _ _ _ _ _ _ cs => wfKeyed cs
  | .styledDiv _ cs => wfAll cs

/-- All elements of the list are well-formed. -/
def wfAll : List Element → Bool
  | [] => true
  | c :: cs => Element.wf c && wfAll cs

/-- All elements of the list carry a `key` attribute and are well-formed. -/
def wfKeyed : List Element → Bool
  | [] => true
  | c :: cs => (Element.key c).isSome && Element.wf c && wfKeyed cs

end

mutual

/-- Every string literal occurring in an element tree: classNames, keys,
and text contents. -/
def Element.strings : Element → List String
  | .text s => [s]
  | .div c k _ cs => c :: k.toList ++ stringsAll cs
  | .gridLayout c _ _ _ _ _ cs => c :: stringsAll cs
  | .styledDiv c cs => c :: stringsAll cs

/-- String literals of all elements of the list. -/
def stringsAll : List Element → List String
  | [] => []
  | c :: cs => Element.strings c ++ stringsAll cs

end

mutual

/-- Every numeric literal occurring in an element tree: the `x`/`y`/`w`/`h`
components of `data-grid` layouts and the `cols`/`margin`/`rowHeight`/`width`
props of `GridLayout` elements. -/
def Element.numbers : Element → List Int
  | .text _ => []
  | .div _ _ g cs =>
      (g.toList.flatMap fun l => [l.x, l.y, l.w, l.h]) ++ numbersAll cs
  | .gridLayout _ c mx my r w cs =>
      (c : Int) :: mx :: my :: (r : Int) :: (w : Int) :: numbersAll cs
  | .styledDiv _ cs => numbersAll cs

/-- Numeric literals of all elements of the list. -/
def numbersAll : List Element → List Int
  | [] => []
  | c :: cs => Element.numbers c ++ numbersAll cs

end

end DashboardGridSrc

namespace ConfigFixture

/-- The `kwargs` record of an llm model entry (`config.test.yaml` lines 5–10):
temperature, n, max_tokens, and the `type` of the `response_format` object. -/
structure LlmKwargs where
  temperature : Nat
  n : Nat
  max_tokens : Nat
  response_format_type : String
deriving DecidableEq

/-- One entry of the llm document's `models` list: a model name and its
`kwargs`. -/
structure LlmModelCfg where
  model : String
  kwargs : LlmKwargs
deriving DecidableEq

/-- The first YAML document (`type: llm`), lines 1–12 of the fixture. -/
structure LlmSection where
  provider : String
  models : List LlmModelCfg
  api_base : String
deriving DecidableEq

/-- One entry of the embedder document's `models` list: a model name and its
embedding dimension. -/
structure EmbedderModelCfg where
  model : String
  dimension : Nat
deriving DecidableEq

/-- The second YAML document (`type: embedder`), lines 14–20 of the fixture. -/
structure EmbedderSection where
  provider : String
  models : List EmbedderModelCfg
  api_base : String
  timeout : Nat
deriving DecidableEq

/-- The third YAML document (`type: engine`), lines 22–24 of the fixture. -/
structure EngineSection where
  provider : String
  endpoint : String
deriving DecidableEq

/-- The fourth YAML document (`type: document_store`), lines 26–30 of the
fixture. -/
structure DocumentStoreSection where
  provider : String
  location : String
  embedding_model_dim : Nat
  timeout : Nat
deriving DecidableEq

/-- One entry of the pipeline document's `pipes` list.  Each pipe names a
pipeline stage and optionally binds it to an llm, an embedder, a document
store, and an engine; a missing YAML key is `none`. -/
structure Pipe where
  name : String
  llm : Option String := none
  embedder : Option String := none
  document_store : Option String := none
  engine : Option String := none
deriving DecidableEq

/-- The fifth YAML document (`type: pipeline`), lines 32–73 of the fixture. -/
structure PipelineSection where
  pipes : List Pipe
deriving DecidableEq

/-- The sixth YAML document (the `settings` mapping), lines 75–89 of the
fixture. -/
structure SettingsSection where
  host : String
  port : Nat
  column_indexing_batch_size : Nat
  doc_endpoint : String
  is_oss : Bool
  table_retrieval_size : Nat
  table_column_retrieval_size : Nat
  query_cache_maxsize : Nat
  query_cache_ttl : Nat
  langfuse_host : String
  langfuse_enable : Bool
  logging_level : String
  development : Bool
deriving DecidableEq

/-- The llm document of `config.test.yaml`. -/
def llmSection : LlmSection :=
  { provider := "openai_llm",
    models := [ { model := "gpt-4o-mini",
                  kwargs := { temperature := 0, n := 1, max_tokens := 4096,
                              response_format_type := "json_object" } } ],
    api_base := "https://api.openai.com/v1" }

/-- The embedder document of `config.test.yaml`. -/
def embedderSection : EmbedderSection :=
  { provider := "openai_embedder",
    models := [ { model := "text-embedding-3-large", dimension := 3072 } ],
    api_base := "https://api.openai.com/v1",
    timeout := 120 }

/-- The engine document of `config.test.yaml`. -/
def engineSection : EngineSection :=
  { provider := "wren_ui",
    endpoint := "http://localhost:3000" }

/-- The document_store document of `config.test.yaml`. -/
def documentStoreSection : DocumentStoreSection :=
  { provider := "qdrant",
    location := "http://localhost:6333",
    embedding_model_dim := 3072,
    timeout := 120 }

/-- The pipeline document of `config.test.yaml`: its thirteen pipes, in file
order, with exactly the keys each pipe record carries in the YAML. -/
def pipelineSection : PipelineSection :=
  { pipes :=
    [ { name := "indexing",
        embedder := some "openai_embedder.text-embedding-3-large",
        document_store := some "qdrant" },
      { name := "retrieval",
        llm := some "openai_llm.gpt-4o-mini",
        embedder := some "openai_embedder.text-embedding-3-large",
        document_store := some "qdrant" },
      { name := "historical_question_retrieval",
        embedder := some "openai_embedder.text-embedding-3-large",
        document_store := some "qdrant" },
      { name := "sql_generation",
        llm := some "openai_llm.gpt-4o-mini",
        engine := some "wren_ui" },
      { name := "sql_correction",
        llm := some "openai_llm.gpt-4o-mini",
        engine := some "wren_ui" },
      { name := "followup_sql_generation",
        llm := some "openai_llm.gpt-4o-mini",
        engine := some "wren_ui" },
      { name := "sql_answer",
        llm := some "openai_llm.gpt-4o-mini",
        engine := some "wren_ui" },
      { name := "sql_explanation",
        llm := some "openai_llm.gpt-4o-mini" },
      { name := "sql_regeneration",
        llm := some "openai_llm.gpt-4o-mini",
        engine := some "wren_ui" },
      { name := "semantics_description",
        llm := some "openai_llm.gpt-4o-mini" },
      { name := "relationship_recommendation",
        llm := some "openai_llm.gpt-4o-mini",
        engine := some "wren_ui" },
      { name := "user_guide_assistance",
        llm := some "openai_llm.gpt-4o-mini" },
      { name := "data_assistance",
        llm := some "openai_llm.gpt-4o-mini" } ] }

/-- The settings document of `config.test.yaml`. -/
def settingsSection : SettingsSection :=
  { host := "127.0.0.1",
    port := 5556,
    column_indexing_batch_size := 50,
    doc_endpoint := "https://docs.getwren.ai",
    is_oss := true,
    table_retrieval_size := 10,
    table_column_retrieval_size := 1000,
    query_cache_maxsize := 1000,
    query_cache_ttl := 3600,
    langfuse_host := "https://cloud.langfuse.com",
    langfuse_enable := false,
    logging_level := "INFO",
    development := false }

/-- One document of the YAML stream, tagged by its section kind. -/
inductive ConfigDoc where
  | llm (s : LlmSection)
  | embedder (s : EmbedderSection)
  | engine (s : EngineSection)
  | document_store (s : DocumentStoreSection)
  | pipeline (s : PipelineSection)
  | settings (s : SettingsSection)
deriving DecidableEq

/-- The section kind of a document: the value of its `type` field for the
first five kinds, and `"settings"` for the settings mapping (which has no
`type` field and is identified by its `settings` key). -/
def ConfigDoc.kind : ConfigDoc → String
  | .llm _ => "llm"
  | .embedder _ => "embedder"
  | .engine _ => "engine"
  | .document_store _ => "document_store"
  | .pipeline _ => "pipeline"
  | .settings _ => "settings"

/-- The whole fixture `config.test.yaml`: a stream of six YAML documents,
in file order. -/
def configTestYaml : List ConfigDoc :=
  [ .llm llmSection,
    .embedder embedderSection,
    .engine engineSection,
    .document_store documentStoreSection,
    .pipeline pipelineSection,
    .settings settingsSection ]

/-- The dotted resource reference `provider.model` used by pipe records to
name a declared llm or embedder model. -/
def dottedRef (provider model : String) : String := provider ++ "." ++ model

/-- The llm references declared by the llm document: one `provider.model`
string per entry of its `models` list. -/
def declaredLlmRefs : List String :=
  llmSection.models.map fun m => dottedRef llmSection.provider m.model

/-- The embedder references declared by the embedder document. -/
def declaredEmbedderRefs : List String :=
  embedderSection.models.map fun m => dottedRef embedderSection.provider m.model

end ConfigFixture

namespace ComposeFile

/-- One entry of a service's `ports` list: `published:target`.  Both sides
are kept as the strings written in the file, since several are `${...}`
variable references rather than literal numbers. -/
structure PortMapping where
  published : String
  target : String
deriving DecidableEq

/-- One service of the Compose file.  Fields keep the Compose keys; a key
absent from the service's mapping is `none` (for scalars) or `[]` (for
lists).  `build` models the Compose `build` key, by which a service would be
built from local sources; no service in this file has one. -/
structure Service where
  name : String
  image : String
  build : Option String := none
  pull_policy : Option String := none
  platform : Option String := none
  expose : List String := []
  ports : List PortMapping := []
  environment : List (String × String) := []
  env_file : List String := []
  volumes : List String := []
  networks : List String := []
  depends_on : List String := []
  command : Option String := none
deriving DecidableEq

/-- The `bootstrap` service (lines 11–19 of the Compose file). -/
def bootstrap : Service :=
  { name := "bootstrap",
    image := "ghcr.io/canner/wren-bootstrap:${WREN_BOOTSTRAP_VERSION}",
    pull_policy := some "always",
    platform := some "${PLATFORM}",
    environment := [("DATA_PATH", "/app/data")],
    volumes := ["data:/app/data"],
    command := some "/bin/sh /app/init.sh" }

/-- The `wren-engine` service (lines 21–34 of the Compose file). -/
def wrenEngine : Service :=
  { name := "wren-engine",
    image := "ghcr.io/canner/wren-engine:${WREN_ENGINE_VERSION}",
    pull_policy := some "always",
    platform := some "${PLATFORM}",
    expose := ["${WREN_ENGINE_SQL_PORT}"],
    ports := [{ published := "${WREN_ENGINE_PORT}", target := "${WREN_ENGINE_PORT}" }],
    volumes := ["data:/usr/src/app/etc"],
    networks := ["wren"],
    depends_on := ["bootstrap"] }

/-- The `wren-ai-service` service (lines 36–56 of the Compose file). -/
def wrenAiService : Service :=
  { name := "wren-ai-service",
    image := "ghcr.io/canner/wren-ai-service:${WREN_AI_SERVICE_VERSION}",
    pull_policy := some "always",
    platform := some "${PLATFORM}",
    ports := [{ published := "${AI_SERVICE_FORWARD_PORT}", target := "${WREN_AI_SERVICE_PORT}" }],
    environment :=
      [ ("WREN_UI_ENDPOINT", "http://host.docker.internal:${WREN_UI_PORT}"),
        ("PYTHONUNBUFFERED", "1"),
        ("CONFIG_PATH", "/app/config.yaml") ],
    env_file := ["${PROJECT_DIR}/.env"],
    volumes :=
      [ "${PROJECT_DIR}/config.yaml:/app/config.yaml:ro",
        "${PROJECT_DIR}/data:/app/data:ro" ],
    networks := ["wren"],
    depends_on := ["qdrant"] }

/-- The `ibis-server` service (lines 58–71 of the Compose file). -/
def ibisServer : Service :=
  { name := "ibis-server",
    image := "ghcr.io/canner/wren-engine-ibis:${IBIS_SERVER_VERSION}",
    pull_policy := some "always",
    platform := some "${PLATFORM}",
    expose := ["8000"],
    ports := [{ published := "${IBIS_SERVER_PORT}", target := "8000" }],
    environment :=
      [ ("WREN_ENGINE_ENDPOINT", "http://wren-engine:${WREN_ENGINE_PORT}"),
        ("LOG_LEVEL", "DEBUG") ],
    networks := ["wren"] }

/-- The `qdrant` service (lines 73–79 of the Compose file). -/
def qdrant : Service :=
  { name := "qdrant",
    image := "qdrant/qdrant:v1.11.0",
    pull_policy := some "always",
    ports :=
      [ { published := "6333", target := "6333" },
        { published := "6334", target := "6334" } ],
    networks := ["wren"] }

/-- The `services` mapping of the Compose file, in file order.  The
commented-out `postgres` block is not a declared service. -/
def services : List Service :=
  [bootstrap, wrenEngine, wrenAiService, ibisServer, qdrant]

end ComposeFile

namespace CrossArtifact

open DashboardGridSrc ConfigFixture ComposeFile

/-- The character sequences between `:` separators, in order (character-level
analogue of splitting a string on `:`; always nonempty). -/
def splitColons : List Char → List (List Char)
  | [] => [[]]
  | c :: cs =>
    match splitColons cs with
    | [] => if c = ':' then [[], [c]] else [[c]]
    | s :: rest => if c = ':' then [] :: s :: rest else (c :: s) :: rest

/-- The natural number denoted by a nonempty all-digit character sequence
(`none` otherwise). -/
def digitsVal (cs : List Char) : Option Nat :=
  match cs with
  | [] => none
  | _ =>
    cs.foldl
      (fun acc c =>
        acc.bind fun a => if c.isDigit then some (a * 10 + (c.toNat - 48)) else none)
      (some 0)

/-- The numeral denoted by a string, when the whole string is a nonempty
digit sequence (`none` otherwise, in particular for `${...}` variable
references). -/
def natOfString (s : String) : Option Nat := digitsVal s.toList

/-- The TCP port named by a URL string, when its last `:`-separated
component is a numeral (so `http://localhost:6333` yields `some 6333`, and a
URL without an explicit port yields `none`). -/
def portOfUrl (u : String) : Option Nat :=
  (splitColons u.toList).getLast? >>= digitsVal

/-- Every URL-valued field of the YAML fixture, in file order. -/
def fixtureUrls : List String :=
  [ llmSection.api_base, embedderSection.api_base, engineSection.endpoint,
    documentStoreSection.location, settingsSection.doc_endpoint,
    settingsSection.langfuse_host ]

/-- Every concrete TCP port the YAML fixture mentions: the explicit ports of
its URL fields together with the `settings.port` value. -/
def fixturePorts : List Nat :=
  fixtureUrls.filterMap portOfUrl ++ [settingsSection.port]

/-- Every concrete TCP port the Compose file declares: the numeral entries
among the services' published ports and `expose` lists (variable references
such as `${IBIS_SERVER_PORT}` denote no concrete port). -/
def composePorts : List Nat :=
  services.flatMap fun s =>
    s.ports.filterMap (fun p => natOfString p.published) ++
      s.expose.filterMap natOfString

/-- The service names the Compose file declares. -/
def composeServiceNames : List String := services.map Service.name

/-- The provider names the YAML fixture declares in its four provider
documents. -/
def fixtureProviders : List String :=
  [ llmSection.provider, embedderSection.provider, engineSection.provider,
    documentStoreSection.provider ]

/-- Every string literal of the rendered `DashboardGrid` tree. -/
def uiStrings : List String := (DashboardGrid ()).strings

/-- Every numeric literal of the rendered `DashboardGrid` tree. -/
def uiNumbers : List Int := (DashboardGrid ()).numbers

/-- The claim that no pair of distinct artifacts shares any concrete port,
provider/service name, or string value: the fixture and the Compose file
share no port and no name, and the UI component's literals coincide with no
port or name of the other two artifacts. -/
def artifactsIndependent : Bool :=
  fixturePorts.all (fun p => !composePorts.contains p) &&
  fixtureProviders.all (fun n => !composeServiceNames.contains n) &&
  uiStrings.all (fun s =>
    !composeServiceNames.contains s && !fixtureProviders.contains s &&
    !fixtureUrls.contains s) &&
  uiNumbers.all (fun v =>
    !(fixturePorts.map (Int.ofNat)).contains v &&
    !(composePorts.map (Int.ofNat)).contains v)

end CrossArtifact

/-- A placeholder grid-cell descriptor, used only as the default value of
list lookups that are in bounds. -/
def DashboardGridSrc.defaultItem : DashboardGridSrc.GridItem :=
  { id := "", layout := ⟨0, 0, 0, 0⟩, render := .text "" }

/-- The first descriptor of `gridLayouts` (the cell with id `a`). -/
def DashboardGridSrc.itemA : DashboardGridSrc.GridItem :=
  DashboardGridSrc.gridLayouts.getD 0 DashboardGridSrc.defaultItem

/-- The second descriptor of `gridLayouts` (the cell with id `b`). -/
def DashboardGridSrc.itemB : DashboardGridSrc.GridItem :=
  DashboardGridSrc.gridLayouts.getD 1 DashboardGridSrc.defaultItem

/-- Two grid-cell descriptors overlap when some column index lies in both
half-open column ranges `[x, x + w)`. -/
def DashboardGridSrc.overlap (a b : DashboardGridSrc.GridItem) : Prop :=
  ∃ c : Int,
    a.layout.x ≤ c ∧ c < a.layout.x + a.layout.w ∧
    b.layout.x ≤ c ∧ c < b.layout.x + b.layout.w

open DashboardGridSrc ConfigFixture ComposeFile CrossArtifact

/-- C1: mapping `gridLayouts` through the arrow function produces, per
descriptor and in the same order, exactly one child `div` whose `key` is the
descriptor's `id`, whose `data-grid` attribute is the descriptor's `layout`
record, and whose sole content is the descriptor's `render` element; hence
`grids` has the same length and order as `gridLayouts`. -/
theorem grids_one_child_per_descriptor :
    grids.length = gridLayouts.length ∧
    grids.map Element.key = gridLayouts.map (fun g => some g.id) ∧
    grids.map Element.dataGrid = gridLayouts.map (fun g => some g.layout) ∧
    grids.map Element.children = gridLayouts.map (fun g => [g.render]) :=
  ⟨rfl, rfl, rfl, rfl⟩

/-- C2: `gridLayouts` is a hard-coded list of exactly two descriptors with
ids `a` and `b`, and rendering the component leaves it unchanged: the keys
and `data-grid` records appearing in the rendered tree are exactly the ids
and layouts of the fixed list (the embedding is pure, so no operation of the
component can mutate the list). -/
theorem gridLayouts_hardcoded_and_unmutated :
    gridLayouts.length = 2 ∧
    gridLayouts.map GridItem.id = ["a", "b"] ∧
    ((DashboardGrid ()).children.headD (.text "")).children.map Element.key
      = gridLayouts.map (fun g => some g.id) ∧
    ((DashboardGrid ()).children.headD (.text "")).children.map Element.dataGrid
      = gridLayouts.map (fun g => some g.layout) :=
  ⟨rfl, rfl, rfl, rfl⟩

/-- C3: every pipe of the fixture's pipeline document references only
declared resources: each `llm` value is `openai_llm.gpt-4o-mini` (the one
declared llm `provider.model`), each `embedder` value is
`openai_embedder.text-embedding-3-large` (the one declared embedder
`provider.model`), each `document_store` value is `qdrant` (the declared
document_store provider), and each `engine` value is `wren_ui` (the declared
engine provider). -/
theorem pipes_reference_declared_resources :
    declaredLlmRefs = ["openai_llm.gpt-4o-mini"] ∧
    declaredEmbedderRefs = ["openai_embedder.text-embedding-3-large"] ∧
    documentStoreSection.provider = "qdrant" ∧
    engineSection.provider = "wren_ui" ∧
    (pipelineSection.pipes.all fun p =>
      p.llm.all (fun r => declaredLlmRefs.contains r) &&
      p.embedder.all (fun r => declaredEmbedderRefs.contains r) &&
      p.document_store.all (fun r => r == documentStoreSection.provider) &&
      p.engine.all (fun r => r == engineSection.provider)) = true := by
  refine ⟨by decide, by decide, rfl, rfl, by decide⟩

/-- C4 counterexample: the three artifacts are not pairwise independent as
claimed — the YAML fixture's `document_store.location` URL names port 6333,
which is exactly the published port of the Compose file's `qdrant` service,
and the fixture's `document_store.provider` name `qdrant` is exactly that
Compose service's name, so `artifactsIndependent` is `false`. -/
theorem artifacts_not_independent :
    artifactsIndependent = false ∧
    portOfUrl documentStoreSection.location = some 6333 ∧
    (qdrant.ports.map PortMapping.published).contains "6333" = true ∧
    documentStoreSection.provider = qdrant.name := by
  refine ⟨by decide, by decide, by decide, rfl⟩

/-- C4 amended: the UI component shares no string or numeric literal with
any port, provider/service name, or URL of the other two artifacts, but the
fixture and the Compose file share exactly one binding — the qdrant one:
port 6333 is the only port they have in common and `qdrant` is the only name
the fixture's providers share with the Compose service names. -/
theorem shared_bindings_exactly_qdrant :
    fixturePorts.filter (fun p => composePorts.contains p) = [6333] ∧
    fixtureProviders.filter (fun n => composeServiceNames.contains n) = ["qdrant"] ∧
    (uiStrings.all fun s =>
      !composeServiceNames.contains s && !fixtureProviders.contains s &&
      !fixtureUrls.contains s) = true ∧
    (uiNumbers.all fun v =>
      !(fixturePorts.map Int.ofNat).contains v &&
      !(composePorts.map Int.ofNat).contains v) = true := by
  refine ⟨by decide, by decide, by decide, by decide⟩

/-- C5: the fixture is a stream of exactly six YAML documents whose section
kinds are, in file order, llm, embedder, engine, document_store, pipeline,
and settings, and no other kind occurs. -/
theorem fixture_six_documents_in_order :
    configTestYaml.length = 6 ∧
    configTestYaml.map ConfigDoc.kind =
      ["llm", "embedder", "engine", "document_store", "pipeline", "settings"] :=
  ⟨rfl, rfl⟩

/-- C6: the Compose file declares exactly the five services bootstrap,
wren-engine, wren-ai-service, ibis-server, and qdrant, in that order; every
one names a pre-built container image (a nonempty `image` value) and none
carries a `build` key, so none is built from local sources. -/
theorem compose_five_prebuilt_services :
    services.map Service.name =
      ["bootstrap", "wren-engine", "wren-ai-service", "ibis-server", "qdrant"] ∧
    (services.all fun s => !(s.image == "") && s.build == none) = true := by
  refine ⟨rfl, by decide⟩

/-- C7: the component is a total function on its (prop-less) unit input:
evaluating it always terminates in the explicit element tree below (so it
never throws and has no conditional error branch — the embedding of its body
needed no `Option` or `Except`), and that tree is well-formed: every child
handed to the `GridLayout` element carries a `key` attribute. -/
theorem dashboard_total_and_wellformed :
    Element.wf (DashboardGrid ()) = true ∧
    DashboardGrid () =
      .styledDiv "mt-12"
        [ .gridLayout "layout" 12 16 16 30 768
            [ .div "" (some "a") (some ⟨0, 0, 6, 6⟩)
                [.div "adm-pin-item" none none [.text "a"]],
              .div "" (some "b") (some ⟨6, 0, 6, 6⟩)
                [.div "adm-pin-item" none none [.text "b"]] ] ] :=
  ⟨rfl, rfl⟩

/-- C8: both grid cells sit at `y = 0` with height 6; cell `a` spans columns
0 to 6 and cell `b` spans columns 6 to 12, so their half-open column ranges
are disjoint, and every cell ends at or before the `cols` value 12 that the
component passes to `GridLayout`. -/
theorem grid_cells_disjoint_in_bounds :
    (itemA.layout.y = 0 ∧ itemB.layout.y = 0 ∧
     itemA.layout.h = 6 ∧ itemB.layout.h = 6 ∧
     itemA.layout.x = 0 ∧ itemA.layout.x + itemA.layout.w = 6 ∧
     itemB.layout.x = 6 ∧ itemB.layout.x + itemB.layout.w = 12 ∧
     ((DashboardGrid ()).children.headD (.text "")).gridCols = some 12 ∧
     (gridLayouts.all fun g => decide (g.layout.x + g.layout.w ≤ 12)) = true) ∧
    ¬ DashboardGridSrc.overlap itemA itemB := by
  constructor
  · decide
  · rintro ⟨c, h1, h2, h3, h4⟩
    have ha : itemA.layout.x + itemA.layout.w = 6 := by decide
    have hb : itemB.layout.x = 6 := by decide
    omega

/-- C9: the descriptor ids of `gridLayouts` are pairwise distinct (`a` and
`b`), the keys of the children produced by the `grids` mapping are exactly
those ids, and hence those keys are pairwise distinct. -/
theorem grid_keys_unique :
    (gridLayouts.map GridItem.id).Nodup ∧
    grids.map Element.key = (gridLayouts.map GridItem.id).map some ∧
    (grids.map Element.key).Nodup := by
  refine ⟨by decide, rfl, by decide⟩

/-- C10: the embedding dimension is consistent across the fixture: the
embedder document's single model declares dimension 3072 and the
document_store document declares `embedding_model_dim` 3072. -/
theorem embedding_dimension_consistent :
    embedderSection.models.map EmbedderModelCfg.dimension = [3072] ∧
    documentStoreSection.embedding_model_dim = 3072 ∧
    (embedderSection.models.map EmbedderModelCfg.dimension).all
      (fun d => d == documentStoreSection.embedding_model_dim) = true := by
  refine ⟨rfl, rfl, by decide⟩
